import Mathlib

/-!
Shallow embedding of the recommendation-system sources (advanced.py,
collaborative.py, content.py, cnn.py) and proofs about them.

Modelling conventions:
- Python floats are modelled as exact rationals (the literals in the
  source, 0.2, 0.8, ..., are exact decimals).
- A pandas DataFrame column keyed by the index becomes an explicit index
  list together with a lookup function; a Python dict becomes an
  association list.
- A raised Python exception becomes an Except.error value; a numpy
  division by zero (which yields NaN) becomes an Option that is none.
- numpy argsort is modelled as a stable ascending sort of the index
  range (numpy uses insertion sort on the small arrays considered here,
  which is stable); Python sorted with reverse set is a stable
  descending sort.
-/

namespace RecSys

/-! ### Similarity primitives (sklearn cosine_similarity, numpy dot/norm) -/

/-- Floor integer square root, by brute force so that it reduces in the
kernel.  Agrees with the mathematical square root on perfect squares;
every concrete evaluation in this file happens at a perfect square. -/
def natSqrt (n : ℕ) : ℕ :=
  ((List.range (n + 1)).filter (fun k => k * k ≤ n)).length - 1

/-- Square root of a nonnegative rational, exact when numerator and
denominator are perfect squares (the only points where theorems below
evaluate it); a computable stand-in for the irrational general case,
on which no theorem in this file depends. -/
def ratSqrt (q : ℚ) : ℚ := (natSqrt q.num.toNat : ℚ) / (natSqrt q.den : ℚ)

/-- numpy dot product of two equal-length vectors. -/
def dotProd (u v : List ℚ) : ℚ := (List.zipWith (fun a b => a * b) u v).sum

/-- Sum of squares of a vector, the square of its L2 norm. -/
def sumSq (v : List ℚ) : ℚ := dotProd v v

/-- sklearn.metrics.pairwise.cosine_similarity on a pair of rows:
dot(u,v)/(norm(u)*norm(v)); sklearn normalizes rows and replaces a zero
norm by 1, so a zero vector gets similarity 0 rather than NaN.  The
zero test uses the sum of squares, which vanishes exactly when the norm
does. -/
def cosine_similarity (u v : List ℚ) : ℚ :=
  if sumSq u = 0 ∨ sumSq v = 0 then 0
  else dotProd u v / (ratSqrt (sumSq u) * ratSqrt (sumSq v))

/-- numpy argsort: indices of the vector in ascending order of value,
ties kept in index order (stable). -/
def argsort (xs : List ℚ) : List ℕ :=
  (List.range xs.length).insertionSort (fun i j => xs.getD i 0 ≤ xs.getD j 0)

/-! ### collaborative.py -/

/-- The transposed user-item matrix held by CollaborativeFiltering
(self.user_item_matrix after the constructor transpose): rows are
users, columns are products, entries are interaction strengths. -/
structure UserItemMatrix where
  userIds : List String
  productIds : List String
  rating : String → String → ℚ

/-- The row of the matrix belonging to a user, in column order. -/
def rowVec (m : UserItemMatrix) (u : String) : List ℚ :=
  m.productIds.map (m.rating u)

/-- Row of the similarity matrix for a user: cosine similarity of that
interaction vector of that user with the vector of every user, in user order
(collaborative.py line 40, from _compute_user_similarity). -/
def user_similarities (m : UserItemMatrix) (user_id : String) : List ℚ :=
  m.userIds.map (fun v => cosine_similarity (rowVec m user_id) (rowVec m v))

/-- collaborative.py line 43: np.argsort(user_similarities)[::-1][1:6],
i.e. descending argsort with the first position dropped and the next
five kept. -/
def similar_users (m : UserItemMatrix) (user_id : String) : List ℕ :=
  (((argsort (user_similarities m user_id)).reverse).drop 1).take 5

/-- Body of the inner loop of recommend_products (line 51): a product is
added when the neighbor rating is positive and the queried-user
rating is zero.  The Python set is modelled as a list with
insertion-order deduplication; set iteration order is unspecified in
Python, and every claim proved below is insensitive to the order. -/
def addStep (m : UserItemMatrix) (user_id similar_user_id : String)
    (a : List String) (product : String) : List String :=
  if 0 < m.rating similar_user_id product ∧ m.rating user_id product = 0 ∧ product ∉ a
  then a ++ [product] else a

/-- Inner loop of recommend_products (lines 50-52): walk the neighbor
row in column order, adding qualifying products. -/
def addNeighborCandidates (m : UserItemMatrix) (user_id similar_user_id : String)
    (acc : List String) : List String :=
  m.productIds.foldl (addStep m user_id similar_user_id) acc

/-- Outer loop of recommend_products (lines 45-52): accumulate
candidates over the similar users in neighborhood order. -/
def recommended_candidates (m : UserItemMatrix) (user_id : String) : List String :=
  (similar_users m user_id).foldl
    (fun a i => addNeighborCandidates m user_id (m.userIds.getD i ("")) a) []

/-- CollaborativeFiltering.recommend_products: raise (Except.error) when
the user is absent from the matrix index, otherwise the candidate set
truncated to top_n. -/
def recommend_products (m : UserItemMatrix) (user_id : String) (top_n : ℕ) :
    Except String (List String) :=
  if user_id ∈ m.userIds
  then .ok ((recommended_candidates m user_id).take top_n)
  else .error ("User not found in user-item matrix")

/-! ### content.py -/

/-- ContentBasedFiltering.recommend_similar_products, parametrized by
the catalog index and the TF-IDF row matrix (one row per catalog row;
the TF-IDF construction itself is an external sklearn call).
get_loc on a missing id raises, modelled as Except.error; on a present
id it returns the first position.  Line 44 of the source: descending
argsort of the similarity row, the reference index filtered out, then
the first top_n positions, mapped back to identifiers. -/
def recommend_similar_products (ids : List String) (tfidf : List (List ℚ))
    (product_id : String) (top_n : ℕ) : Except String (List String) :=
  if product_id ∈ ids then
    let product_index := ids.indexOf product_id
    let similarity_scores :=
      tfidf.map (fun f => cosine_similarity (tfidf.getD product_index []) f)
    let similar_indices :=
      (((argsort similarity_scores).reverse).filter (fun i => i ≠ product_index)).take top_n
    .ok (similar_indices.map (fun i => ids.getD i ("")))
  else .error ("Product not found in catalog")

/-! ### cnn.py -/

/-- One similarity from cnn.py lines 56-60:
np.dot(reference, feat) / (np.linalg.norm(reference) * np.linalg.norm(feat)).
There is no zero-norm guard in that source; a zero denominator is a
numpy division by zero yielding NaN, modelled as none.  The denominator
vanishes exactly when one of the sums of squares does. -/
def visual_cosine (u v : List ℚ) : Option ℚ :=
  if sumSq u = 0 ∨ sumSq v = 0 then none
  else some (dotProd u v / (ratSqrt (sumSq u) * ratSqrt (sumSq v)))

/-- The similarity list built by recommend_visually_similar_products
over the product feature vectors. -/
def visual_similarities (reference_features : List ℚ)
    (product_features : List (List ℚ)) : List (Option ℚ) :=
  product_features.map (fun feat => visual_cosine reference_features feat)

/-! ### advanced.py: context scoring -/

/-- Context dictionary; a key absent from the Python dict reads as
none (dict.get returns None). -/
structure ContextDescriptor where
  device : Option String
  location : Option String
  time_of_day : Option String
  season : Option String

/-- The weight table passed to _compute_context_relevance. -/
structure ContextWeights where
  device : ℚ
  location : ℚ
  time_of_day : ℚ
  season : ℚ

/-- The fixed context_weights dict of context_aware_recommendations
(advanced.py lines 41-46). -/
def context_weights : ContextWeights := ⟨2/10, 2/10, 3/10, 3/10⟩

/-- time_preferences dict (advanced.py lines 89-93). -/
def time_preferences : List (String × List String) :=
  [("Morning", ["Breakfast Items", "Fitness Products"]),
   ("Afternoon", ["Lunch Accessories", "Work Gear"]),
   ("Evening", ["Dinner Products", "Relaxation Items"])]

/-- seasonal_categories dict (advanced.py lines 100-103). -/
def seasonal_categories : List (String × List String) :=
  [("Winter", ["Warm Clothing", "Indoor Accessories"]),
   ("Summer", ["Beach Wear", "Cooling Products"])]

/-- dict.get(key, []) where key may itself be None. -/
def dictGetList (d : List (String × List String)) (k : Option String) : List String :=
  match k with
  | none => []
  | some key => ((d.find? (fun x => x.1 = key)).map (fun x => x.2)).getD []

/-- AdvancedRecommendationSystem._compute_context_relevance, with the
product_data category column abstracted as categoryOf.  The running
relevance_score accumulation of the source is kept as sequential
conditional additions. -/
def compute_context_relevance (categoryOf : String → String) (product_id : String)
    (context : ContextDescriptor) (weights : ContextWeights) : ℚ :=
  let s0 : ℚ := 0
  let s1 := if context.device = some ("Mobile") then s0 + weights.device * (8/10) else s0
  let s2 := if context.location = some ("Urban") then s1 + weights.location * (7/10) else s1
  let product_category := categoryOf product_id
  let s3 := if product_category ∈ dictGetList time_preferences context.time_of_day
            then s2 + weights.time_of_day else s2
  if product_category ∈ dictGetList seasonal_categories context.season
  then s3 + weights.season else s3

/-- AdvancedRecommendationSystem.context_aware_recommendations: score
every catalog item, stable-sort descending by score (Python sorted with
reverse=True is stable), keep the first ten identifiers.  The user_id
argument is accepted and ignored, exactly as in the source. -/
def context_aware_recommendations (productIds : List String)
    (categoryOf : String → String) (user_id : String)
    (context : ContextDescriptor) : List String :=
  let recommendations := productIds.map
    (fun pid => (pid, compute_context_relevance categoryOf pid context context_weights))
  ((recommendations.insertionSort (fun a b => b.2 ≤ a.2)).take 10).map (fun r => r.1)

/-! ### advanced.py: diversity filter -/

/-- Loop of diversity_optimization (advanced.py lines 129-135): keep an
item only when its category key is not yet in the category_diversity
dict; seen is the key set of that dict (the counts stored in the dict never
influence the output). -/
def diversityLoop (categoryOf : String → String) : List String → List String → List String
  | _, [] => []
  | seen, r :: rest =>
    if categoryOf r ∈ seen then diversityLoop categoryOf seen rest
    else r :: diversityLoop categoryOf (categoryOf r :: seen) rest

/-- AdvancedRecommendationSystem.diversity_optimization.  The
diversity_factor parameter (default 0.3) is accepted and never read,
exactly as in the source. -/
def diversity_optimization (categoryOf : String → String)
    (recommendations : List String) (diversity_factor : ℚ) : List String :=
  diversityLoop categoryOf [] recommendations

/-! ### Demo data from advanced.py lines 145-164 -/

/-- The category column of the demo product_data frame. -/
def product_categories : List (String × String) :=
  [("p1", "Warm Clothing"), ("p2", "Beach Wear"), ("p3", "Indoor Accessories"),
   ("p4", "Fitness Products"), ("p5", "Dinner Products")]

/-- Category lookup over the demo catalog. -/
def demo_category (pid : String) : String :=
  ((product_categories.find? (fun x => x.1 = pid)).map (fun x => x.2)).getD ("")

/-- The demo context of advanced.py lines 159-164. -/
def demo_context : ContextDescriptor :=
  ⟨some ("Mobile"), some ("Urban"), some ("Evening"), some ("Winter")⟩

/-! ### Concrete inputs used by counterexamples and witnesses -/

deriving instance DecidableEq for Except

/-- Two users with identical interaction vectors: the other user has
similarity to the queried user tying the self-similarity of 1. -/
def tieMatrix : UserItemMatrix := ⟨["u1", "u2"], ["p"], fun _ _ => 1⟩

/-- A matrix whose product column labels include the identifier of the
queried user (legal in pandas, where both are arbitrary labels): user u1
has not interacted with the product labelled u1, while u2 has. -/
def aliasMatrix : UserItemMatrix :=
  ⟨["u1", "u2"], ["u1", "p2"],
   fun u p => if u = ("u1") ∧ p = ("p2") then 1
              else if u = ("u2") ∧ p = ("u1") then 1 else 0⟩

/-- A small well-behaved matrix: u1 interacted only with pa, u2 only
with pb. -/
def simpleMatrix : UserItemMatrix :=
  ⟨["u1", "u2"], ["pa", "pb"],
   fun u p => if u = ("u1") ∧ p = ("pa") then 1
              else if u = ("u2") ∧ p = ("pb") then 1 else 0⟩

/-- A catalog in which items b and c have feature vectors identical to
the reference item a, so both tie at similarity 1. -/
def tiedIds : List String := ["a", "b", "c"]

/-- Feature rows for tiedIds. -/
def tiedTfidf : List (List ℚ) := [[1], [1], [1]]

/-- A two-item catalog used to instantiate the content-scorer theorem. -/
def pairIds : List String := ["x", "y"]

/-- Feature rows for pairIds. -/
def pairTfidf : List (List ℚ) := [[1], [0]]

/-! ### Helper lemmas -/

/-- Anything in the output of the collaborative inner loop was already in the
accumulator or is a walked product the queried user has not interacted
with. -/
theorem mem_foldl_addStep (m : UserItemMatrix) (u n : String) :
    ∀ (l acc : List String) (x : String), x ∈ l.foldl (addStep m u n) acc →
      x ∈ acc ∨ (x ∈ l ∧ m.rating u x = 0) := by
  intro l
  induction l with
  | nil => intro acc x h; exact .inl h
  | cons p rest ih =>
    intro acc x h
    rw [List.foldl_cons] at h
    rcases ih _ x h with h1 | h2
    · unfold addStep at h1
      by_cases hc : 0 < m.rating n p ∧ m.rating u p = 0 ∧ p ∉ acc
      · rw [if_pos hc] at h1
        rcases List.mem_append.mp h1 with ha | hb
        · exact .inl ha
        · have hxp : x = p := by simpa using hb
          subst hxp
          exact .inr ⟨List.mem_cons_self x rest, hc.2.1⟩
      · rw [if_neg hc] at h1
        exact .inl h1
    · exact .inr ⟨List.mem_cons_of_mem p h2.1, h2.2⟩

/-- Anything in the collaborative candidate accumulation over a
neighbor list is a catalog product the queried user has not interacted
with, provided the starting accumulator only holds such products. -/
theorem mem_neighborFold (m : UserItemMatrix) (u : String) :
    ∀ (ns : List ℕ) (acc : List String),
      (∀ y ∈ acc, y ∈ m.productIds ∧ m.rating u y = 0) →
      ∀ x ∈ ns.foldl (fun a i => addNeighborCandidates m u (m.userIds.getD i ("")) a) acc,
        x ∈ m.productIds ∧ m.rating u x = 0 := by
  intro ns
  induction ns with
  | nil => intro acc hacc x hx; exact hacc x hx
  | cons i rest ih =>
    intro acc hacc x hx
    rw [List.foldl_cons] at hx
    refine ih _ ?_ x hx
    intro y hy
    rcases mem_foldl_addStep m u (m.userIds.getD i ("")) m.productIds acc y hy with h1 | h2
    · exact hacc y h1
    · exact h2

/-- The diversity loop only ever drops elements of its input, keeping
order. -/
theorem diversityLoop_sublist (categoryOf : String → String) :
    ∀ (l seen : List String), (diversityLoop categoryOf seen l).Sublist l := by
  intro l
  induction l with
  | nil => intro seen; simp [diversityLoop]
  | cons r rest ih =>
    intro seen
    simp only [diversityLoop]
    split
    · exact (ih seen).cons r
    · exact (ih _).cons₂ r

/-- The categories of the diversity-loop output are pairwise distinct
and disjoint from the already-seen set. -/
theorem diversityLoop_categories (categoryOf : String → String) :
    ∀ (l seen : List String),
      ((diversityLoop categoryOf seen l).map categoryOf).Nodup ∧
      ∀ x ∈ diversityLoop categoryOf seen l, categoryOf x ∉ seen := by
  intro l
  induction l with
  | nil => intro seen; simp [diversityLoop]
  | cons r rest ih =>
    intro seen
    simp only [diversityLoop]
    split
    · exact ⟨(ih seen).1, (ih seen).2⟩
    · rename_i hns
      obtain ⟨hnd, hni⟩ := ih (categoryOf r :: seen)
      refine ⟨?_, ?_⟩
      · simp only [List.map_cons, List.nodup_cons]
        refine ⟨?_, hnd⟩
        intro hmem
        obtain ⟨y, hy, hey⟩ := List.mem_map.mp hmem
        have hys := hni y hy
        rw [hey] at hys
        exact hys (List.mem_cons_self _ _)
      · intro x hx
        rcases List.mem_cons.mp hx with hx1 | hx2
        · rw [hx1]; exact hns
        · intro hmem
          exact hni x hx2 (List.mem_cons_of_mem _ hmem)

/-- Every item kept by the diversity loop is the first element of the
walked input whose category matches its own (first-occurrence-per-
category rule). -/
theorem diversityLoop_first_occurrence (categoryOf : String → String) :
    ∀ (l seen : List String), ∀ x ∈ diversityLoop categoryOf seen l,
      l.find? (fun y => categoryOf y = categoryOf x) = some x := by
  intro l
  induction l with
  | nil => intro seen x hx; simp [diversityLoop] at hx
  | cons r rest ih =>
    intro seen x hx
    rw [diversityLoop] at hx
    by_cases hr : categoryOf r ∈ seen
    · rw [if_pos hr] at hx
      have hneq : categoryOf r ≠ categoryOf x := by
        intro he
        exact (diversityLoop_categories categoryOf rest seen).2 x hx (he ▸ hr)
      rw [List.find?_cons_of_neg _ (by simpa using hneq), ih seen x hx]
    · rw [if_neg hr] at hx
      rcases List.mem_cons.mp hx with hx1 | hx2
      · subst hx1
        exact List.find?_cons_of_pos _ (by simp)
      · have hnin := (diversityLoop_categories categoryOf rest
          (categoryOf r :: seen)).2 x hx2
        have hneq : categoryOf r ≠ categoryOf x := by
          intro he
          exact hnin (he ▸ List.mem_cons_self _ _)
        rw [List.find?_cons_of_neg _ (by simpa using hneq),
          ih (categoryOf r :: seen) x hx2]

/-! ### Claim theorems -/

unseal Rat.mul Rat.add Rat.inv in
/-- C1 (counterexample): with the demo context (Mobile, Urban, Evening,
Winter) and the demo weight table, the relevance score of item p1
(category Warm Clothing) is not 0.2+0.2+0.3 = 0.7 as claimed: the
device and location rules contribute their weights scaled by 0.8 and
0.7 respectively. -/
theorem C1_counterexample :
    compute_context_relevance demo_category ("p1") demo_context context_weights ≠ 7/10 := by
  decide

unseal Rat.mul Rat.add Rat.inv in
/-- C1 (amended): for the demo context and weights, items of category
Warm Clothing (p1), Indoor Accessories (p3) and Dinner Products (p5)
score 0.2*0.8 + 0.2*0.7 + 0.3 = 0.6, while Beach Wear (p2) and Fitness
Products (p4) score 0.2*0.8 + 0.2*0.7 = 0.3. -/
theorem C1_amended_scores :
    compute_context_relevance demo_category ("p1") demo_context context_weights = 3/5 ∧
    compute_context_relevance demo_category ("p3") demo_context context_weights = 3/5 ∧
    compute_context_relevance demo_category ("p5") demo_context context_weights = 3/5 ∧
    compute_context_relevance demo_category ("p2") demo_context context_weights = 3/10 ∧
    compute_context_relevance demo_category ("p4") demo_context context_weights = 3/10 := by
  decide

/-- C2: for every category assignment, context descriptor and weight
table, the context relevance score is the sum of four independent
additive contributions: weight.device*0.8 when the device is Mobile,
weight.location*0.7 when the location is Urban, weight.time_of_day when
the category is in the time-of-day table for the context time, and
weight.season when the category is in the season table for the
context season; a rule that does not fire contributes 0. -/
theorem C2_additive_relevance (categoryOf : String → String) (product_id : String)
    (context : ContextDescriptor) (weights : ContextWeights) :
    compute_context_relevance categoryOf product_id context weights =
      (if context.device = some ("Mobile") then weights.device * (8/10) else 0) +
      (if context.location = some ("Urban") then weights.location * (7/10) else 0) +
      (if categoryOf product_id ∈ dictGetList time_preferences context.time_of_day
       then weights.time_of_day else 0) +
      (if categoryOf product_id ∈ dictGetList seasonal_categories context.season
       then weights.season else 0) := by
  simp only [compute_context_relevance]
  split_ifs <;> ring

unseal Rat.mul Rat.add Rat.inv in
/-- C3 (code bug): on a matrix where the interaction vector of u2 is
identical to that of u1, so that their similarity ties the self-similarity of
1, the neighborhood computed for u1 is exactly index 0 — the queried
user itself — contradicting the stated self-exclusion (and the source
own comment "excluding self"). -/
theorem C3_self_in_neighborhood :
    similar_users tieMatrix ("u1") = [0] ∧ tieMatrix.userIds.getD 0 ("") = "u1" := by
  decide

unseal Rat.mul Rat.add Rat.inv in
/-- C4 (counterexample): on a matrix whose product columns include the
label u1, querying user u1 returns the list [u1], which contains the
identifier of the queried user. -/
theorem C4_counterexample :
    recommend_products aliasMatrix ("u1") 5 = Except.ok ["u1"] := by
  decide

/-- C4 (amended): whenever the collaborative recommender returns a
list, every returned item is one the queried user has zero interaction
with, and — provided the user identifier is not itself a product
column label — the list never contains the queried-user identifier. -/
theorem C4_no_self_no_interacted (m : UserItemMatrix) (user_id : String) (top_n : ℕ)
    (l : List String) (h : recommend_products m user_id top_n = .ok l) :
    (user_id ∉ m.productIds → user_id ∉ l) ∧ ∀ p ∈ l, m.rating user_id p = 0 := by
  unfold recommend_products at h
  by_cases hm : user_id ∈ m.userIds
  · rw [if_pos hm] at h
    injection h with h
    subst h
    have hsub : ∀ x ∈ (recommended_candidates m user_id).take top_n,
        x ∈ m.productIds ∧ m.rating user_id x = 0 := by
      intro x hx
      have hx2 : x ∈ recommended_candidates m user_id :=
        (List.take_sublist _ _).subset hx
      unfold recommended_candidates at hx2
      exact mem_neighborFold m user_id (similar_users m user_id) [] (by simp) x hx2
    exact ⟨fun hnp hmem => hnp (hsub _ hmem).1, fun p hp => (hsub p hp).2⟩
  · rw [if_neg hm] at h
    simp at h

unseal Rat.mul Rat.add Rat.inv in
/-- C4 (witness): on simpleMatrix, querying u1 returns [pb]; the
returned list avoids the queried identifier and only holds items u1 has
zero interaction with. -/
theorem C4_no_self_no_interacted_witness :
    ("u1" ∉ simpleMatrix.productIds → "u1" ∉ (["pb"] : List String)) ∧
      ∀ p ∈ (["pb"] : List String), simpleMatrix.rating ("u1") p = 0 :=
  C4_no_self_no_interacted simpleMatrix ("u1") 5 ["pb"] (by decide)

unseal Rat.mul Rat.add Rat.inv in
/-- C5 (code bug): on a catalog where items b and c both tie the
reference item a at similarity 1, the content recommender returns
[c, b] — tied items in descending catalog order — where the claimed
stable descending sort would return [b, c]. -/
theorem C5_tie_order_descending :
    recommend_similar_products tiedIds tiedTfidf ("a") 5 = Except.ok ["c", "b"] := by
  decide

/-- C6: whenever the content recommender returns a list for a catalog
with unique identifiers (one feature row per catalog entry), the list
does not contain the reference item and has at most top_n entries. -/
theorem C6_no_reference_bounded (ids : List String) (tfidf : List (List ℚ))
    (product_id : String) (top_n : ℕ) (l : List String)
    (hnd : ids.Nodup) (hlen : tfidf.length = ids.length)
    (h : recommend_similar_products ids tfidf product_id top_n = .ok l) :
    product_id ∉ l ∧ l.length ≤ top_n := by
  unfold recommend_similar_products at h
  by_cases hm : product_id ∈ ids
  · rw [if_pos hm] at h
    injection h with h
    subst h
    constructor
    · intro hmem
      obtain ⟨i, hi, hieq⟩ := List.mem_map.mp hmem
      have hi2 : i ∈ ((argsort (tfidf.map (fun f =>
          cosine_similarity (tfidf.getD (ids.indexOf product_id) []) f))).reverse).filter
          (fun j => j ≠ ids.indexOf product_id) :=
        (List.take_sublist _ _).subset hi
      have hne : i ≠ ids.indexOf product_id := by
        simpa using List.of_mem_filter hi2
      have hmem2 := List.mem_reverse.mp (List.mem_of_mem_filter hi2)
      have hilt : i < ids.length := by
        have hr := (List.perm_insertionSort _ _).mem_iff.mp hmem2
        rw [List.mem_range] at hr
        simpa [List.length_map, hlen] using hr
      have hidx : ids.indexOf product_id < ids.length := List.indexOf_lt_length.mpr hm
      have hgd : ids[i] = ids[ids.indexOf product_id] := by
        rw [List.getElem_indexOf hidx, ← hieq, List.getD_eq_getElem ids ("") hilt]
      exact hne (hnd.getElem_inj_iff.mp hgd)
    · rw [List.length_map, List.length_take]
      exact min_le_left _ _
  · rw [if_neg hm] at h
    simp at h

unseal Rat.mul Rat.add Rat.inv in
/-- C6 (witness): on the two-item catalog pairIds the recommender for x
returns [y], which avoids x and has length at most 5. -/
theorem C6_no_reference_bounded_witness :
    ("x" ∉ (["y"] : List String)) ∧ (["y"] : List String).length ≤ 5 :=
  C6_no_reference_bounded pairIds pairTfidf ("x") 5 ["y"] (by decide) (by decide)
    (by decide)

unseal Rat.mul Rat.add Rat.inv in
/-- C7 (code bug): the image-pipeline similarity of cnn.py, applied to
a reference vector and a product list containing an all-zero vector,
produces an undefined value (numpy division by zero, NaN) rather than
the similarity 0 the claim requires. -/
theorem C7_zero_vector_undefined :
    visual_similarities [1] [[0]] = [none] := by
  decide

/-- C8: with the default diversity factor, the diversity-filter
output is an order-preserving subsequence of its input whose categories
are pairwise distinct (at most one item per category), and every kept
item is the first element of the input bearing its category
(first-occurrence-per-category rule). -/
theorem C8_diversity_filter (categoryOf : String → String) (recommendations : List String) :
    (diversity_optimization categoryOf recommendations (3/10)).Sublist recommendations ∧
    ((diversity_optimization categoryOf recommendations (3/10)).map categoryOf).Nodup ∧
    ∀ x ∈ diversity_optimization categoryOf recommendations (3/10),
      recommendations.find? (fun y => categoryOf y = categoryOf x) = some x :=
  ⟨diversityLoop_sublist categoryOf recommendations [],
   (diversityLoop_categories categoryOf recommendations []).1,
   fun x hx => diversityLoop_first_occurrence categoryOf recommendations [] x hx⟩

/-- C9: the collaborative recommender returns an error exactly when the
queried user identifier is absent from the matrix index, and returns a
(possibly empty) list exactly when it is present. -/
theorem C9_error_iff_unknown_user (m : UserItemMatrix) (user_id : String) (top_n : ℕ) :
    ((∃ e, recommend_products m user_id top_n = .error e) ↔ user_id ∉ m.userIds) ∧
    ((∃ l, recommend_products m user_id top_n = .ok l) ↔ user_id ∈ m.userIds) := by
  unfold recommend_products
  by_cases hm : user_id ∈ m.userIds <;> simp [hm]

/-- C10: the context-aware recommendation output is the same for any
two user identifiers; the user_id argument never influences the
ranking. -/
theorem C10_user_id_irrelevant (productIds : List String) (categoryOf : String → String)
    (context : ContextDescriptor) (user_a user_b : String) :
    context_aware_recommendations productIds categoryOf user_a context =
      context_aware_recommendations productIds categoryOf user_b context := rfl

end RecSys
